import Mathlib

/-!
Verification of the wake-word detection and streaming audio subsystem.

Shallow embedding of the TypeScript sources:
 * `src/src/hooks/useWakeWord.ts` — `WakeWordService` (WebSocket transport),
   `WakeWordAudioProcessor` (capture + circular buffer + VAD + features +
   local classifier) and the `useWakeWord` hook;
 * `src/utils/wakeWordDetection.ts` (`WakeWordDetector`, transcript matcher);
 * `src/hooks/useSpeech.ts` (transcript path with its own `detectWakeWord`).

Conventions: JavaScript numbers are modelled as `ℚ` where only field
arithmetic and comparisons occur, and as `ℝ` where `Math.cos` is involved
(the spectral centroid / mock-confidence path).  Nullable object fields
become `Option`/`Bool` flags, `Math.random()` becomes an explicit input,
`setTimeout` becomes an explicit "scheduled" value in the state or the
result, and callback invocations are counted or collected in lists.
-/

namespace WakeWord

/-! ## Character predicates and normalization (WakeWordDetector.detectWakeWord)

The source normalizes a transcript with
`transcript.replace(/[^\w\s]/g, '').replace(/\s+/g, ' ').trim()`;
the caller (`recognition.onresult`) has already applied
`.toLowerCase().trim()`.  `\w` is `[A-Za-z0-9_]`, `\s` is whitespace. -/

/-- Regex `\w`: ASCII letter, digit or underscore. -/
def isWordChar (c : Char) : Bool := c.isAlphanum || c == '_'

/-- Regex `\s` (the whitespace characters that occur in transcripts). -/
def isSpaceChar (c : Char) : Bool := c == ' ' || c == '\t' || c == '\n' || c == '\r'

/-- `replace(/[^\w\s]/g, '')`: delete every char that is neither word nor space. -/
def stripPunct (l : List Char) : List Char := l.filter (fun c => isWordChar c || isSpaceChar c)

/-- `replace(/\s+/g, ' ')`: collapse every whitespace run to a single blank. -/
def collapseSpaces (l : List Char) : List Char :=
  l.foldr (fun c acc =>
    if isSpaceChar c then (if acc.head? == some ' ' then acc else ' ' :: acc)
    else c :: acc) []

/-- `trim()` (leading and trailing whitespace removed). -/
def trimSpaces (l : List Char) : List Char :=
  ((l.dropWhile isSpaceChar).reverse.dropWhile isSpaceChar).reverse

/-- `toLowerCase()` (ASCII, as for all transcripts involved). -/
def lowerChars (l : List Char) : List Char := l.map Char.toLower

/-- JS `String.prototype.startsWith`. -/
def strStartsWith (s p : List Char) : Bool := s.take p.length == p

/-- JS `String.prototype.endsWith`. -/
def strEndsWith (s p : List Char) : Bool := s.drop (s.length - p.length) == p

/-- JS `String.prototype.includes`: `p` occurs as a contiguous substring of `s`. -/
def strContains (s p : List Char) : Bool :=
  (List.range (s.length + 1)).any fun i => strStartsWith (s.drop i) p

/-- Word-character test on an optional char; `none` (outside the string) is
non-word, as for the regex `\b` at the ends of the input. -/
def isWordOpt : Option Char → Bool
  | some c => isWordChar c
  | none => false

/-- Regex `\b` holds between positions `i-1` and `i` of `s` iff exactly one
side is a word character. -/
def boundaryAt (s : List Char) (i : Nat) : Bool :=
  isWordOpt s[i]? != isWordOpt (if i == 0 then none else s[i-1]?)

/-- `new RegExp("\\b" ++ w ++ "\\b", "i").test(s)`: `w` occurs in `s` at
word boundaries, case-insensitively (both sides lowercased). -/
def boundaryTest (s w : List Char) : Bool :=
  (List.range (s.length + 1)).any fun i =>
    strStartsWith ((lowerChars s).drop i) (lowerChars w)
      && boundaryAt (lowerChars s) i && boundaryAt (lowerChars s) (i + w.length)

/-- The wake-word phrase list of `WakeWordDetector.detectWakeWord`. -/
def wakeWordsWWD : List (List Char) :=
  ["orion", "hey orion", "hi orion", "hello orion", "ok orion",
   "orion help", "orion assistant"].map String.data

namespace WakeWordDetector

/-- `WakeWordDetector.detectWakeWord(transcript)`: normalize (strip
punctuation, collapse whitespace, trim) and match any configured phrase by
exact equality, prefix-plus-blank, or boundary-aware containment. -/
def detectWakeWord (transcript : List Char) : Bool :=
  let normalized := trimSpaces (collapseSpaces (stripPunct transcript))
  wakeWordsWWD.any fun w =>
    normalized == w
      || strStartsWith normalized (w ++ [' '])
      || boundaryTest normalized w

/-- The full transcript path of `recognition.onresult`: the raw recognizer
transcript is lowercased and trimmed before `detectWakeWord` is applied. -/
def transcriptMatches (raw : List Char) : Bool :=
  detectWakeWord (trimSpaces (lowerChars raw))

end WakeWordDetector

/-! ## The secondary transcript matcher (useSpeech.ts `detectWakeWord`) -/

/-- The wake-word phrase list of `useSpeech`'s `detectWakeWord`. -/
def wakeWordsUS : List (List Char) :=
  ["orion", "hey orion", "hi orion", "hello orion"].map String.data

namespace UseSpeech

/-- `useSpeech`'s `detectWakeWord(text)`: lowercase and trim, then match any
phrase by `includes`, `startsWith` or `endsWith` — plain substring
containment, with no punctuation stripping and no word-boundary test. -/
def detectWakeWord (text : List Char) : Bool :=
  let normalizedText := trimSpaces (lowerChars text)
  wakeWordsUS.any fun w =>
    strContains normalizedText w
      || strStartsWith normalizedText w
      || strEndsWith normalizedText w

end UseSpeech

/-! ## WakeWordAudioProcessor: circular buffer, VAD, chunk extraction

`circularBuffer` is a `Float32Array(sampleRate * 2)` (zero-initialized) with a
wrapping write index `bufferIndex`; samples are modelled as `ℚ`. -/

/-- The circular-buffer state of `WakeWordAudioProcessor`:
`circularBuffer` contents plus `bufferIndex`. -/
structure RingBuffer where
  buf : List ℚ
  idx : Nat
deriving DecidableEq

/-- One iteration of the write loop of `processAudioBuffer`:
`circularBuffer[bufferIndex] = inputBuffer[i];
bufferIndex = (bufferIndex + 1) % circularBuffer.length`. -/
def writeSample (st : RingBuffer) (x : ℚ) : RingBuffer :=
  { buf := st.buf.set st.idx x, idx := (st.idx + 1) % st.buf.length }

/-- The whole write loop of `processAudioBuffer` over one input frame. -/
def writeSamples (st : RingBuffer) (inputBuffer : List ℚ) : RingBuffer :=
  inputBuffer.foldl writeSample st

/-- `hasVoiceActivity`: mean squared amplitude compared against `0.001`. -/
def hasVoiceActivity (audioData : List ℚ) : Bool :=
  decide ((1 : ℚ)/1000 < ((audioData.map fun s => s * s).sum / audioData.length))

/-- `processAudioBuffer(inputBuffer)`: append the frame to the circular
buffer; the returned flag is the VAD gate deciding whether a chunk is
extracted and classified. -/
def processAudioBuffer (st : RingBuffer) (inputBuffer : List ℚ) : RingBuffer × Bool :=
  (writeSamples st inputBuffer, hasVoiceActivity inputBuffer)

/-- A sequence of `processAudioBuffer` calls (buffer component). -/
def writeFrames (st : RingBuffer) (frames : List (List ℚ)) : RingBuffer :=
  frames.foldl (fun s f => (processAudioBuffer s f).1) st

/-- The constructor's buffer: `new Float32Array(this.sampleRate * 2)` with
`bufferIndex = 0`. -/
def mkProcessorBuffer (sampleRate : Nat) : RingBuffer :=
  { buf := List.replicate (sampleRate * 2) 0, idx := 0 }

/-- `getAudioChunk()`: `chunkSize = sampleRate`; entry `i` is
`circularBuffer[(bufferIndex - chunkSize + i + len) % len]`.  (With
`chunkSize ≤ len`, as in the source where `len = sampleRate * 2`, the
non-negative form below coincides with the JavaScript index.) -/
def getAudioChunk (st : RingBuffer) (sampleRate : Nat) : List ℚ :=
  let chunkSize := sampleRate
  (List.range chunkSize).map fun i =>
    st.buf.getD ((st.idx + (st.buf.length - chunkSize) + i) % st.buf.length) 0


/-! ## WakeWordService: WebSocket transport with reconnection

State of a `WakeWordService` instance.  `ws` holds the `readyState` of the
current `WebSocket` object (`0` CONNECTING, `1` OPEN, `2` CLOSING,
`3` CLOSED), `none` when the field is `null`.  `socketsCreated` counts
`new WebSocket(url)` constructions; `statuses` collects `onStatusChange`
notifications (most recent first). -/

/-- Status notifications emitted through `onStatusChange`. -/
inductive StatusMsg where
  | connected
  | connectionError
  | reconnecting (attempt : Nat) (maxAttempts : Nat)
  | maxAttemptsReached
deriving DecidableEq

/-- `WakeWordService` instance state. -/
structure SvcState where
  ws : Option Nat
  reconnectAttempts : Nat
  isConnecting : Bool
  socketsCreated : Nat
  statuses : List StatusMsg
deriving DecidableEq

/-- `maxReconnectAttempts = 5`. -/
def maxReconnectAttempts : Nat := 5

/-- `reconnectDelay = 1000` (ms). -/
def reconnectDelay : Nat := 1000

/-- `handleReconnection()`: if the attempt counter has reached the cap,
report `Max reconnection attempts reached` and schedule nothing (second
component `none`); otherwise increment the counter, report progress and
schedule `connect` after `reconnectDelay * reconnectAttempts` ms (second
component `some delay`). -/
def handleReconnection (s : SvcState) : SvcState × Option Nat :=
  if maxReconnectAttempts ≤ s.reconnectAttempts then
    ({ s with statuses := StatusMsg.maxAttemptsReached :: s.statuses }, none)
  else
    let a := s.reconnectAttempts + 1
    ({ s with reconnectAttempts := a,
              statuses := StatusMsg.reconnecting a maxReconnectAttempts :: s.statuses },
      some (reconnectDelay * a))

/-- `ws.onopen`: clear `isConnecting`, reset `reconnectAttempts` to `0`,
mark the socket OPEN, report connection. -/
def wsOnOpen (s : SvcState) : SvcState :=
  { s with isConnecting := false, reconnectAttempts := 0, ws := some 1,
           statuses := StatusMsg.connected :: s.statuses }

/-- `ws.onclose`: clear `isConnecting`, then `handleReconnection()`.
Returns the new state and the delay of the scheduled reconnect, if any. -/
def wsOnClose (s : SvcState) : SvcState × Option Nat :=
  handleReconnection { s with isConnecting := false, ws := some 3 }

/-- `connect()`.  The guard returns `true` immediately when already
connecting or when the socket is OPEN.  Otherwise a new socket is created
(`socketsCreated + 1`, `isConnecting := true`) and the promise resolves
according to the socket's eventual fate `eventualOpen` (the `checkConnection`
poll loop: `true` once OPEN, `false` once CLOSED, the latter after the
`onclose` handler has run).  Result: resolved value, final state, and the
delay of any reconnect scheduled by `onclose`. -/
def connect (s : SvcState) (eventualOpen : Bool) : Bool × SvcState × Option Nat :=
  if s.isConnecting || s.ws == some 1 then
    (true, s, none)
  else
    let s1 := { s with isConnecting := true, ws := some 0,
                       socketsCreated := s.socketsCreated + 1 }
    if eventualOpen then
      (true, wsOnOpen s1, none)
    else
      let r := wsOnClose s1
      (false, r.1, r.2)

/-- `disconnect()`: close and null the socket, reset the attempt counter and
the connecting flag.  Never fails from any state. -/
def disconnect (s : SvcState) : SvcState :=
  { s with ws := none, reconnectAttempts := 0, isConnecting := false }

/-- A freshly connected service (state right after a successful `connect`). -/
def connectedSvc : SvcState :=
  { ws := some 1, reconnectAttempts := 0, isConnecting := false,
    socketsCreated := 1, statuses := [StatusMsg.connected] }

/-- State after `n` consecutive unexpected closes (each reconnect attempt
failing and closing again), starting from a freshly connected service. -/
def iterClose : Nat → SvcState
  | 0 => connectedSvc
  | n + 1 => (wsOnClose (iterClose n)).1

/-! ## Inbound message handling (`ws.onmessage`) -/

/-- Inbound message types of `WakeWordResponse`. -/
inductive RespType where
  | DETECTION
  | STATUS
  | ERROR
deriving DecidableEq

/-- A parsed `WakeWordResponse`. -/
structure WakeWordResponse where
  rtype : RespType
  detected : Bool
  confidence : ℚ
  message : String
  timestamp : Nat
deriving DecidableEq

/-- A raw transport payload as seen by `ws.onmessage`: either `JSON.parse`
succeeds and yields a response, or it throws (unparseable data). -/
inductive Payload where
  | wellFormed (r : WakeWordResponse)
  | malformed (raw : String)
deriving DecidableEq

/-- `ws.onmessage`: parse the payload; on success hand the response to
`onMessage`; on a parse error log it (`console.error`) and drop the message.
Result: service state (untouched by the handler — it neither closes nor
mutates the connection), the responses delivered to the consumer, and the
number of parse errors logged. -/
def wsOnMessage (s : SvcState) (p : Payload) : SvcState × List WakeWordResponse × Nat :=
  match p with
  | .wellFormed r => (s, [r], 0)
  | .malformed _ => (s, [], 1)

/-- Sequential processing of a list of inbound payloads. -/
def processMessages (s : SvcState) : List Payload → SvcState × List WakeWordResponse × Nat
  | [] => (s, [], 0)
  | p :: ps =>
      let r := wsOnMessage s p
      let rest := processMessages r.1 ps
      (rest.1, r.2.1 ++ rest.2.1, r.2.2 + rest.2.2)

/-- The payloads `JSON.parse` accepts, in order. -/
def parsedOf (ps : List Payload) : List WakeWordResponse :=
  ps.filterMap fun p => match p with
    | .wellFormed r => some r
    | .malformed _ => none

/-- The unparseable payloads (each is logged once). -/
def malformedCount (ps : List Payload) : Nat :=
  (ps.filter fun p => match p with
    | .wellFormed _ => false
    | .malformed _ => true).length

/-! ## `useWakeWord` hook: start, detection cooldown and teardown -/

/-- The hook state visible to `startWakeWorker`: the `isActive` flag, a
count of `new WakeWordAudioProcessor()` capture sessions created, and the
current `WakeWordService`, if any. -/
structure HookState where
  isActive : Bool
  sessionsCreated : Nat
  svc : Option SvcState
deriving DecidableEq

/-- `startWakeWorker()`.  Returns `true` immediately when `isActive` (no new
capture session, no new transport).  Otherwise, with local processing a new
`WakeWordAudioProcessor` is constructed and initialized (outcome `initOk`);
with remote processing `initializeWebSocketService` constructs a fresh
`WakeWordService` and `connect()` runs (promise outcome `initOk`).
`isActive` is set only on success. -/
def startWakeWorker (useLocalProcessing : Bool) (initOk : Bool) (s : HookState) :
    Bool × HookState :=
  if s.isActive then (true, s)
  else if useLocalProcessing then
    let s1 := { s with sessionsCreated := s.sessionsCreated + 1 }
    if initOk then (true, { s1 with isActive := true }) else (false, s1)
  else
    let svc0 : SvcState := { ws := none, reconnectAttempts := 0, isConnecting := false,
                             socketsCreated := 0, statuses := [] }
    let c := connect svc0 initOk
    if c.1 then (true, { s with svc := some c.2.1, isActive := true })
    else (false, { s with svc := some c.2.1 })

/-- Detection-related hook state handled by `handleWakeWordDetection`:
`timerExpiry` is the absolute expiry instant of the pending
`detectionTimeoutRef` timer, and `callbackCount` counts invocations of the
consumer's `onWakeWordDetected`. -/
structure DetState where
  isDetected : Bool
  confidence : ℚ
  lastDetectionTime : Option Nat
  timerExpiry : Option Nat
  callbackCount : Nat
deriving DecidableEq

/-- `handleWakeWordDetection(detectionConfidence)` at instant `now`: set the
detected flag, record confidence and time, invoke the consumer callback
(counted), clear any pending timer and arm a fresh 3000 ms timer that will
clear the detected flag. -/
def handleWakeWordDetection (now : Nat) (detectionConfidence : ℚ) (s : DetState) : DetState :=
  { isDetected := true,
    confidence := detectionConfidence,
    lastDetectionTime := some now,
    callbackCount := s.callbackCount + 1,
    timerExpiry := some (now + 3000) }

/-- Hook detection state before any detection. -/
def initialDetState : DetState :=
  { isDetected := false, confidence := 0, lastDetectionTime := none,
    timerExpiry := none, callbackCount := 0 }

/-- `useSpeech` wake-word state: the `wakeWordDetected` flag, the consumer
callback count, and the 10 s reset timer (`wakeWordTimeoutRef`). -/
structure SpeechDetState where
  wakeWordDetected : Bool
  callbackCount : Nat
  timerExpiry : Option Nat
deriving DecidableEq

/-- `useSpeech`'s `handleWakeWordDetection` at instant `now`: set the flag,
invoke the consumer callback, clear any pending timer and arm a fresh
10000 ms timer that will clear the flag. -/
def handleWakeWordDetectionUS (now : Nat) (s : SpeechDetState) : SpeechDetState :=
  { wakeWordDetected := true,
    callbackCount := s.callbackCount + 1,
    timerExpiry := some (now + 10000) }

/-- The wake-word check in `useSpeech`'s `recognition.onresult`:
`if (detectWakeWord(fullTranscript) && !wakeWordDetected) handleWakeWordDetection()`. -/
def onresultWakeCheck (now : Nat) (fullTranscript : List Char) (s : SpeechDetState) :
    SpeechDetState :=
  if UseSpeech.detectWakeWord fullTranscript && !s.wakeWordDetected then
    handleWakeWordDetectionUS now s
  else s

/-! ## Teardown (`WakeWordAudioProcessor.cleanup`, `disconnect`, `stopWakeWorker`) -/

/-- Resource fields of `WakeWordAudioProcessor`: `true` means the field is
non-null (the resource is held). -/
structure ProcState where
  audioContext : Bool
  mediaStream : Bool
  scriptProcessor : Bool
  isListening : Bool
deriving DecidableEq

/-- Messages emitted through the processor's `onMessage` callback. -/
inductive ProcMsg where
  | detectionStarted
  | detectionStopped
deriving DecidableEq

/-- `stopDetection()`: clear the listening flag and report. -/
def stopDetection (s : ProcState) : ProcState × List ProcMsg :=
  ({ s with isListening := false }, [ProcMsg.detectionStopped])

/-- `cleanup()`: `stopDetection()`, then release (guardedly: each step runs
only when the field is non-null, so releasing an already-released resource
is skipped) and null the script processor, audio context and media stream. -/
def cleanup (s : ProcState) : ProcState × List ProcMsg :=
  let r := stopDetection s
  ({ r.1 with scriptProcessor := false, audioContext := false, mediaStream := false }, r.2)

/-- Hook state handled by the visible part of `stopWakeWorker` (lines
516–531): activity and detection flags, confidence, and the two pending
timers (`true` means a timer is pending). -/
structure HookStopState where
  isActive : Bool
  isDetected : Bool
  confidence : ℚ
  detectionTimeout : Bool
  batteryMonitor : Bool
deriving DecidableEq

/-- The visible body of `stopWakeWorker()`: clear the flags and confidence
and cancel (null) both timers. -/
def stopWakeWorkerVisible (_s : HookStopState) : HookStopState :=
  { isActive := false, isDetected := false, confidence := 0,
    detectionTimeout := false, batteryMonitor := false }

/-! ## Languages and `setLanguage` -/

/-- The `Language` union type of `src/types`. -/
inductive Language where
  | en | hi | ta | te | kn | bn
deriving DecidableEq

/-- `getLanguageCode` (identical table in `translations.ts` and
`WakeWordDetector`). -/
def getLanguageCode : Language → String
  | .en => "en-US"
  | .hi => "hi-IN"
  | .ta => "ta-IN"
  | .te => "te-IN"
  | .kn => "kn-IN"
  | .bn => "bn-IN"

/-- The recognizer object's mutable `lang` property. -/
structure RecState where
  lang : String
deriving DecidableEq

/-- `WakeWordDetector` instance state (the fields `setLanguage`,
`startListening` and `stopListening` touch), with call counters for the
recognizer's `start()`/`stop()`. -/
structure WWDState where
  isListening : Bool
  recognition : Option RecState
  language : Language
  confidenceThreshold : ℚ
  stopCalls : Nat
  startCalls : Nat
deriving DecidableEq

namespace WakeWordDetector

/-- `WakeWordDetector.setLanguage(language)`: store the language; apply it
to the recognizer only when a recognizer exists and we are NOT listening.
No stop, no restart. -/
def setLanguage (language : Language) (s : WWDState) : WWDState :=
  { s with
    language := language,
    recognition :=
      match s.recognition with
      | some r => if !s.isListening then some { r with lang := getLanguageCode language }
                  else some r
      | none => none }

end WakeWordDetector

/-- `useSpeech` recognizer state for the language-change effect:
`recognition` is whether `recognitionRef.current` is non-null,
`pendingStart` whether a `setTimeout(startListening, 100)` is scheduled. -/
structure SpeechLangState where
  listening : Bool
  recognition : Bool
  stopCalls : Nat
  pendingStart : Bool
deriving DecidableEq

/-- `useSpeech`'s `stopListening()`: stop and null the recognizer when
present. -/
def stopListeningUS (s : SpeechLangState) : SpeechLangState :=
  if s.recognition then { s with recognition := false, stopCalls := s.stopCalls + 1 } else s

/-- The `useSpeech` language effect: when a recognizer exists and we are
listening, perform `stopListening()` and schedule `startListening` after
100 ms — one stop-then-restart cycle per language change. -/
def languageEffect (s : SpeechLangState) : SpeechLangState :=
  if s.recognition && s.listening then { stopListeningUS s with pendingStart := true } else s

/-! ## Local classifier: features and mock confidence (real-valued model)

`Math.cos` is modelled by `Real.cos`, so these definitions live in `ℝ`;
`Math.random()` becomes the explicit argument `rand`. -/

/-- Entry `i` of the `fft` scratch array after the windowing loop of
`calculateSpectralCentroid`: Hann-windowed sample for `i < windowSize`
(`windowSize = min(audioData.length, 1024)`), and the array's zero initial
value otherwise. -/
noncomputable def fftEntry (audioData : List ℝ) (i : Nat) : ℝ :=
  let windowSize := min audioData.length 1024
  if i < windowSize then
    audioData.getD i 0 * 0.5 * (1 - Real.cos (2 * Real.pi * i / ((windowSize : ℝ) - 1)))
  else 0

/-- The summation range of the centroid loop `for (i = 1; i < windowSize/2; i++)`
(float division, integer `i`). -/
def centroidRange (audioData : List ℝ) : Finset Nat :=
  Finset.Ico 1 ((min audioData.length 1024 + 1) / 2)

/-- `magnitudeSum` accumulated by the centroid loop. -/
noncomputable def magnitudeSum (audioData : List ℝ) : ℝ :=
  (centroidRange audioData).sum fun i => |fftEntry audioData i|

/-- `weightedSum` accumulated by the centroid loop. -/
noncomputable def weightedSum (audioData : List ℝ) : ℝ :=
  (centroidRange audioData).sum fun i => (i : ℝ) * |fftEntry audioData i|

/-- `calculateSpectralCentroid(audioData)`:
`magnitudeSum > 0 ? weightedSum / magnitudeSum : 0`. -/
noncomputable def calculateSpectralCentroid (audioData : List ℝ) : ℝ :=
  if magnitudeSum audioData > 0 then weightedSum audioData / magnitudeSum audioData else 0

/-- The `energy` of `processWakeWord`: mean absolute amplitude. -/
noncomputable def chunkEnergy (audioChunk : List ℝ) : ℝ :=
  (audioChunk.map fun s => |s|).sum / audioChunk.length

/-- The `mockConfidence` of `processWakeWord`:
`Math.min(0.99, (energy * 50 + spectralCentroid * 0.1) * Math.random())`,
with the random draw `rand` made explicit. -/
noncomputable def mockConfidence (audioChunk : List ℝ) (rand : ℝ) : ℝ :=
  min 0.99 ((chunkEnergy audioChunk * 50 + calculateSpectralCentroid audioChunk * 0.1) * rand)

/-- `processWakeWord(audioChunk)`: emit a detection (with its confidence)
exactly when the mock confidence exceeds the threshold. -/
noncomputable def processWakeWord (wakeWordThreshold : ℝ) (audioChunk : List ℝ) (rand : ℝ) :
    Option ℝ :=
  if wakeWordThreshold < mockConfidence audioChunk rand then
    some (mockConfidence audioChunk rand)
  else none

/-- A concrete all-ones one-second-style chunk used as input evidence. -/
noncomputable def onesChunk : List ℝ := [1, 1, 1, 1]

/-- A `WakeWordDetector` that is actively listening with an `en-US`
recognizer — the state in which the spec expects `setLanguage` to restart
the pipeline. -/
def listeningWWD : WWDState :=
  { isListening := true, recognition := some { lang := "en-US" }, language := Language.en,
    confidenceThreshold := 7/10, stopCalls := 0, startCalls := 0 }

/-! ## Circular-buffer lemmas and the chunk-extraction theorem -/

lemma getD_replicate_zero (n m : Nat) : (List.replicate n (0:ℚ)).getD m 0 = 0 := by
  rw [List.getD_eq_getElem?_getD, List.getElem?_replicate]
  split <;> rfl

lemma writeSamples_append (st : RingBuffer) (l l' : List ℚ) :
    writeSamples st (l ++ l') = writeSamples (writeSamples st l) l' := by
  simp [writeSamples, List.foldl_append]

lemma writeFrames_eq_join (st : RingBuffer) (frames : List (List ℚ)) :
    writeFrames st frames = writeSamples st frames.flatten := by
  induction frames generalizing st with
  | nil => rfl
  | cons f fs ih =>
      show writeFrames (writeSamples st f) fs = _
      rw [ih, List.flatten_cons, writeSamples_append]

/-- Characterization of the ring buffer after writing `ws` into the fresh
zero buffer of capacity `L`: the window of the `L` cells, read at positions
`p % L` for `ws.length ≤ p < ws.length + L`, equals the zero-padded write
history `replicate L 0 ++ ws` at position `p`. -/
lemma writeSamples_invariant (L : Nat) (ws : List ℚ) :
    (writeSamples ⟨List.replicate L 0, 0⟩ ws).buf.length = L ∧
    (writeSamples ⟨List.replicate L 0, 0⟩ ws).idx = ws.length % L ∧
    ∀ p : Nat, ws.length ≤ p → p < ws.length + L →
      (writeSamples ⟨List.replicate L 0, 0⟩ ws).buf.getD (p % L) 0
        = (List.replicate L (0:ℚ) ++ ws).getD p 0 := by
  induction ws using List.reverseRecOn with
  | nil =>
      refine ⟨by simp [writeSamples], by simp [writeSamples], ?_⟩
      intro p _ hp2
      simp only [writeSamples, List.foldl_nil, List.append_nil]
      rw [getD_replicate_zero, getD_replicate_zero]
  | append_singleton ws x ih =>
      obtain ⟨hlen, hidx, hC⟩ := ih
      set st := writeSamples ⟨List.replicate L 0, 0⟩ ws with hst
      have hstep : writeSamples ⟨List.replicate L 0, 0⟩ (ws ++ [x]) = writeSample st x := by
        rw [writeSamples_append]; rfl
      set t := ws.length with ht
      refine ⟨?_, ?_, ?_⟩
      · rw [hstep]; simp [writeSample, hlen]
      · rw [hstep]
        show (st.idx + 1) % st.buf.length = (ws ++ [x]).length % L
        rw [hlen, hidx, Nat.mod_add_mod, List.length_append]
        rfl
      · intro p hp1 hp2
        rw [List.length_append] at hp1 hp2
        simp only [List.length_cons, List.length_nil] at hp1 hp2
        rw [hstep]
        show (st.buf.set st.idx x).getD (p % L) 0
            = (List.replicate L (0:ℚ) ++ (ws ++ [x])).getD p 0
        have hL : 0 < L := by omega
        rw [← List.append_assoc]
        by_cases hpe : p = t + L
        · -- the cell just overwritten: position `t + L` of the padded history
          have hmod : p % L = t % L := by rw [hpe, Nat.add_mod_right]
          have hidxlt : st.idx < st.buf.length := by
            rw [hlen, hidx]; exact Nat.mod_lt _ hL
          have hcond : st.idx = p % L := by rw [hidx, hmod]
          have hlt2 : p % L < st.buf.length := hcond ▸ hidxlt
          have hLHS : (st.buf.set st.idx x).getD (p % L) 0 = x := by
            simp [List.getD_eq_getElem?_getD, List.getElem?_set, hcond, hlt2]
          have hRHS : ((List.replicate L (0:ℚ) ++ ws) ++ [x]).getD p 0 = x := by
            have hlen2 : (List.replicate L (0:ℚ) ++ ws).length = L + t := by
              simp [List.length_append, List.length_replicate]
            rw [List.getD_append_right _ _ _ _ (by omega), hlen2]
            have : p - (L + t) = 0 := by omega
            rw [this]; rfl
          rw [hLHS, hRHS]
        · -- an untouched cell: `t + 1 ≤ p < t + L`
          have hplt : p < t + L := by omega
          have hmodne : p % L ≠ t % L := by
            intro hcontra
            have hmeq : Nat.ModEq L t p := hcontra.symm
            have hdvd : L ∣ p - t := (Nat.modEq_iff_dvd' (by omega)).mp hmeq
            have hk : 0 < p - t := by omega
            have := Nat.le_of_dvd hk hdvd
            omega
          have hLHS : (st.buf.set st.idx x).getD (p % L) 0 = st.buf.getD (p % L) 0 := by
            rw [List.getD_eq_getElem?_getD, List.getElem?_set, hidx,
              if_neg (fun h => hmodne (h.symm)), ← List.getD_eq_getElem?_getD]
          rw [hLHS, hC p (by omega) hplt]
          have hlen2 : (List.replicate L (0:ℚ) ++ ws).length = L + t := by
            simp [List.length_append, List.length_replicate]
          rw [List.getD_append _ [x] 0 p (by omega)]

/-- **C2**: after any sequence of `processAudioBuffer` writes (of arbitrary
total length, including exceeding the capacity `sampleRate * 2`),
`getAudioChunk` has fixed length `chunkSize = sampleRate` and its entry `i`
is exactly the `i`-th oldest of the most recent `chunkSize` written samples,
in chronological order; entries for which fewer samples than needed were
ever written are `0` (zero-fill from the fresh buffer). -/
theorem C2_extract_most_recent (sr : Nat) (frames : List (List ℚ)) :
    (getAudioChunk (writeFrames (mkProcessorBuffer sr) frames) sr).length = sr ∧
    ∀ i : Nat, i < sr →
      (getAudioChunk (writeFrames (mkProcessorBuffer sr) frames) sr).getD i 0 =
        if sr ≤ frames.flatten.length + i
        then frames.flatten.getD (frames.flatten.length + i - sr) 0
        else 0 := by
  rw [writeFrames_eq_join]
  simp only [mkProcessorBuffer]
  set ws := frames.flatten with hws
  obtain ⟨hlen, hidx, hC⟩ := writeSamples_invariant (sr * 2) ws
  set st := writeSamples ⟨List.replicate (sr * 2) 0, 0⟩ ws with hst
  constructor
  · simp [getAudioChunk]
  · intro i hi
    set t := ws.length with ht
    have hmap : (getAudioChunk st sr).getD i 0
        = st.buf.getD ((st.idx + (st.buf.length - sr) + i) % st.buf.length) 0 := by
      simp [getAudioChunk, List.getD_eq_getElem?_getD, List.getElem?_map,
        List.getElem?_range, hi]
    rw [hmap, hlen, hidx]
    have harith : (t % (sr * 2) + (sr * 2 - sr) + i) % (sr * 2) = (t + sr + i) % (sr * 2) := by
      have h1 : sr * 2 - sr = sr := by omega
      rw [h1, Nat.add_assoc, Nat.mod_add_mod, ← Nat.add_assoc]
    rw [harith, hC (t + sr + i) (by omega) (by omega)]
    by_cases hcase : sr ≤ t + i
    · rw [if_pos hcase,
        List.getD_append_right _ _ _ _ (by simp only [List.length_replicate]; omega)]
      congr 1
      simp only [List.length_replicate]
      omega
    · rw [if_neg hcase,
        List.getD_append _ _ _ _ (by simp only [List.length_replicate]; omega),
        getD_replicate_zero]

/-- Witness for C2: capacity `2 * 2 = 4`, five samples written (wrap-around),
the extracted 2-sample chunk is `[4, 5]` — the most recent two samples in
order. -/
theorem C2_extract_most_recent_witness :
    (getAudioChunk (writeFrames (mkProcessorBuffer 2) [[1, 2, 3], [4, 5]]) 2).length = 2 ∧
    (getAudioChunk (writeFrames (mkProcessorBuffer 2) [[1, 2, 3], [4, 5]]) 2).getD 0 0 = 4 ∧
    (getAudioChunk (writeFrames (mkProcessorBuffer 2) [[1, 2, 3], [4, 5]]) 2).getD 1 0 = 5 := by
  have h := C2_extract_most_recent 2 [[1, 2, 3], [4, 5]]
  refine ⟨h.1, ?_, ?_⟩
  · rw [h.2 0 (by decide)]; decide
  · rw [h.2 1 (by decide)]; decide

/-! ## Helper lemmas for the real-valued classifier -/

lemma magnitudeSum_nonneg (l : List ℝ) : 0 ≤ magnitudeSum l :=
  Finset.sum_nonneg fun _ _ => abs_nonneg _

lemma weightedSum_nonneg (l : List ℝ) : 0 ≤ weightedSum l :=
  Finset.sum_nonneg fun i _ => mul_nonneg (Nat.cast_nonneg i) (abs_nonneg _)

lemma calculateSpectralCentroid_nonneg (l : List ℝ) : 0 ≤ calculateSpectralCentroid l := by
  unfold calculateSpectralCentroid
  split
  · exact div_nonneg (weightedSum_nonneg l) (le_of_lt (by assumption))
  · exact le_refl 0

lemma chunkEnergy_nonneg (l : List ℝ) : 0 ≤ chunkEnergy l := by
  unfold chunkEnergy
  apply div_nonneg _ (Nat.cast_nonneg _)
  apply List.sum_nonneg
  intro x hx
  obtain ⟨y, _, rfl⟩ := List.mem_map.mp hx
  exact abs_nonneg y

lemma magnitudeSum_nil : magnitudeSum ([] : List ℝ) = 0 := by
  unfold magnitudeSum centroidRange
  simp

lemma chunkEnergy_ones : chunkEnergy onesChunk = 1 := by
  unfold chunkEnergy onesChunk
  simp [abs_one]
  norm_num

/-! ## Helper lemma for reconnection -/

lemma iterClose_attempts (n : Nat) : (iterClose n).reconnectAttempts = min n 5 := by
  induction n with
  | zero => rfl
  | succ n ih =>
      have hdef : iterClose (n + 1) = (wsOnClose (iterClose n)).1 := rfl
      rw [hdef]
      simp only [wsOnClose, handleReconnection, maxReconnectAttempts]
      split_ifs with h <;> simp_all <;> omega

/-! ## Claim theorems -/

/-- **C1, counterexample**: two qualifying detections 1000 ms apart — well
inside one 3000 ms cooldown window — produce TWO consumer callbacks, not
one: `handleWakeWordDetection` has no cooldown gate, and it re-arms the
3-second timer on each detection (the second window ends at 4000, not
3000), so detections during the window are neither dropped nor
first-detection-wins. -/
theorem C1_counterexample :
    (handleWakeWordDetection 1000 (9/10)
        (handleWakeWordDetection 0 (9/10) initialDetState)).callbackCount = 2 ∧
    (handleWakeWordDetection 1000 (9/10)
        (handleWakeWordDetection 0 (9/10) initialDetState)).callbackCount ≠ 1 ∧
    (handleWakeWordDetection 1000 (9/10)
        (handleWakeWordDetection 0 (9/10) initialDetState)).timerExpiry = some 4000 := by
  decide

/-- **C1, amended**: in `useWakeWord`, every qualifying detection invokes the
consumer callback (exactly one more per call) and re-arms the 3000 ms timer
(which only clears the detected flag); suppression exists only in the
`useSpeech` transcript path, where a detection while `wakeWordDetected` is
set produces zero additional callbacks (first-detection-wins per its
10000 ms window). -/
theorem C1_amended_cooldown :
    (∀ (s : DetState) (now : Nat) (c : ℚ),
        (handleWakeWordDetection now c s).callbackCount = s.callbackCount + 1 ∧
        (handleWakeWordDetection now c s).timerExpiry = some (now + 3000)) ∧
    (∀ (t : SpeechDetState) (now : Nat) (txt : List Char),
        t.wakeWordDetected = true → onresultWakeCheck now txt t = t) ∧
    (∀ (t : SpeechDetState) (now : Nat) (txt : List Char),
        t.wakeWordDetected = false → UseSpeech.detectWakeWord txt = true →
          (onresultWakeCheck now txt t).callbackCount = t.callbackCount + 1 ∧
          (onresultWakeCheck now txt t).wakeWordDetected = true ∧
          (onresultWakeCheck now txt t).timerExpiry = some (now + 10000)) := by
  refine ⟨fun s now c => ⟨rfl, rfl⟩, ?_, ?_⟩
  · intro t now txt h
    unfold onresultWakeCheck
    rw [h]
    simp
  · intro t now txt h1 h2
    unfold onresultWakeCheck
    rw [h1, h2]
    exact ⟨rfl, rfl, rfl⟩

/-- Witness for the amended C1 at concrete states and the transcript
`"orion"`. -/
theorem C1_amended_cooldown_witness :
    onresultWakeCheck 0 (String.data "orion")
        ⟨true, 3, some 5⟩ = ⟨true, 3, some 5⟩ ∧
    (onresultWakeCheck 0 (String.data "orion") ⟨false, 3, none⟩).callbackCount = 3 + 1 :=
  ⟨C1_amended_cooldown.2.1 ⟨true, 3, some 5⟩ 0 (String.data "orion") rfl,
   (C1_amended_cooldown.2.2 ⟨false, 3, none⟩ 0 (String.data "orion") rfl (by decide)).1⟩

/-- **C3, counterexample**: the claim asserts the transcript matcher rejects
`"orionmeeting"` (no word boundary); but one of the two transcript matchers
the claim covers — `useSpeech`'s `detectWakeWord`, which uses bare
`includes`/`startsWith`/`endsWith` containment — accepts it. -/
theorem C3_counterexample :
    UseSpeech.detectWakeWord (String.data "orionmeeting") = true := by
  decide

/-- **C3, amended**: `WakeWordDetector.detectWakeWord` (with its caller's
lowercasing) behaves exactly as the claim states — matching `"Hey Orion,
what's the time"` and `"ORION"` and rejecting `"orionmeeting"` — while the
secondary `useSpeech` matcher also lowercases but matches by bare substring
containment, so it accepts `"orionmeeting"` as well. -/
theorem C3_amended_matcher :
    WakeWordDetector.transcriptMatches (String.data "Hey Orion, what's the time") = true ∧
    WakeWordDetector.transcriptMatches (String.data "orionmeeting") = false ∧
    WakeWordDetector.transcriptMatches (String.data "ORION") = true ∧
    UseSpeech.detectWakeWord (String.data "ORION") = true ∧
    UseSpeech.detectWakeWord (String.data "Hey Orion, what's the time") = true ∧
    UseSpeech.detectWakeWord (String.data "orionmeeting") = true := by
  decide

/-- **C4**: reconnect attempt `n + 1` (counting from a fresh connection) is
scheduled after `reconnectDelay * (n + 1)` ms — linear backoff — for the
first `maxReconnectAttempts = 5` consecutive failures; the close after the
fifth failed attempt schedules nothing (terminal) and reports
`Max reconnection attempts reached`; and every successful `onopen` resets
the attempt counter to `0`. -/
theorem C4_reconnect_backoff :
    (∀ n : Nat, (wsOnClose (iterClose n)).2 =
        if n < maxReconnectAttempts then some (reconnectDelay * (n + 1)) else none) ∧
    (∀ s : SvcState, (wsOnOpen s).reconnectAttempts = 0) ∧
    (iterClose (maxReconnectAttempts + 1)).statuses.head? = some StatusMsg.maxAttemptsReached := by
  refine ⟨?_, fun s => rfl, by decide⟩
  intro n
  have ha := iterClose_attempts n
  simp only [wsOnClose, handleReconnection, maxReconnectAttempts, reconnectDelay]
  split_ifs with h h2 <;> simp_all <;> omega

/-- **C6**: every teardown operation is a total function (never throws) and
safe from any state: `cleanup` leaves no audio context, media stream or
script processor and is idempotent on the resource state; `disconnect`
leaves no socket, resets the attempt counter and connecting flag, and is
idempotent; the visible body of `stopWakeWorker` cancels both pending
timers and is idempotent. -/
theorem C6_teardown_infallible :
    (∀ p : ProcState,
        (cleanup p).1.audioContext = false ∧ (cleanup p).1.mediaStream = false ∧
        (cleanup p).1.scriptProcessor = false ∧ (cleanup p).1.isListening = false ∧
        (cleanup (cleanup p).1).1 = (cleanup p).1) ∧
    (∀ s : SvcState,
        (disconnect s).ws = none ∧ (disconnect s).reconnectAttempts = 0 ∧
        (disconnect s).isConnecting = false ∧ disconnect (disconnect s) = disconnect s) ∧
    (∀ h : HookStopState,
        (stopWakeWorkerVisible h).detectionTimeout = false ∧
        (stopWakeWorkerVisible h).batteryMonitor = false ∧
        (stopWakeWorkerVisible h).isActive = false ∧
        stopWakeWorkerVisible (stopWakeWorkerVisible h) = stopWakeWorkerVisible h) := by
  exact ⟨fun p => ⟨rfl, rfl, rfl, rfl, rfl⟩,
         fun s => ⟨rfl, rfl, rfl, rfl⟩,
         fun h => ⟨rfl, rfl, rfl, rfl⟩⟩

/-- **C7**: processing any sequence of inbound payloads never changes the
connection state (in particular the handler neither throws nor closes the
socket), delivers exactly the well-formed messages in arrival order
(malformed ones are dropped), and logs one parse error per malformed
payload — so well-formed messages after a malformed one are still
delivered. -/
theorem C7_malformed_dropped (s : SvcState) (ps : List Payload) :
    (processMessages s ps).1 = s ∧
    (processMessages s ps).2.1 = parsedOf ps ∧
    (processMessages s ps).2.2 = malformedCount ps := by
  induction ps generalizing s with
  | nil => exact ⟨rfl, rfl, rfl⟩
  | cons p ps ih =>
      obtain ⟨h1, h2, h3⟩ := ih s
      cases p with
      | wellFormed r =>
          refine ⟨h1, ?_, ?_⟩
          · show r :: (processMessages s ps).2.1 = r :: parsedOf ps
            rw [h2]
          · show 0 + (processMessages s ps).2.2 = malformedCount ps
            omega
      | malformed raw =>
          refine ⟨h1, ?_, ?_⟩
          · show (processMessages s ps).2.1 = parsedOf ps
            exact h2
          · show 1 + (processMessages s ps).2.2 = malformedCount ps + 1
            omega

/-- **C9**: `startWakeWorker` with the engine already active returns success
immediately with the state unchanged (no new capture session, no new
transport, no error), and `connect` while already connecting or with an
OPEN socket returns `true` without constructing a second socket. -/
theorem C9_start_idempotent :
    (∀ (useLocal initOk : Bool) (s : HookState), s.isActive = true →
        startWakeWorker useLocal initOk s = (true, s)) ∧
    (∀ (s : SvcState) (eventualOpen : Bool),
        s.isConnecting = true ∨ s.ws = some 1 →
        connect s eventualOpen = (true, s, none)) := by
  constructor
  · intro u i s h
    simp [startWakeWorker, h]
  · intro s e h
    have hg : (s.isConnecting || s.ws == some 1) = true := by
      cases h with
      | inl h1 => simp [h1]
      | inr h2 => simp [h2]
    simp [connect, hg]

/-- Witness for C9: a second `startWakeWorker` on an active hook and a
`connect` on an OPEN service both succeed as no-ops. -/
theorem C9_start_idempotent_witness :
    startWakeWorker true true ⟨true, 1, none⟩ = (true, ⟨true, 1, none⟩) ∧
    connect ⟨some 1, 0, false, 1, [StatusMsg.connected]⟩ true
      = (true, ⟨some 1, 0, false, 1, [StatusMsg.connected]⟩, none) :=
  ⟨C9_start_idempotent.1 true true ⟨true, 1, none⟩ rfl,
   C9_start_idempotent.2 ⟨some 1, 0, false, 1, [StatusMsg.connected]⟩ true (Or.inr rfl)⟩

/-- **C8, counterexample**: `WakeWordDetector.setLanguage` called while
Listening performs ZERO stop-then-restart cycles, not one: it only stores
the new language (deferring even the recognizer's `lang` update), leaving
the pipeline running untouched.  (The sensitivity threshold is indeed
unchanged.) -/
theorem C8_counterexample :
    (WakeWordDetector.setLanguage Language.hi listeningWWD).stopCalls = 0 ∧
    (WakeWordDetector.setLanguage Language.hi listeningWWD).stopCalls ≠ 1 ∧
    (WakeWordDetector.setLanguage Language.hi listeningWWD).startCalls = 0 ∧
    (WakeWordDetector.setLanguage Language.hi listeningWWD).isListening = true ∧
    (WakeWordDetector.setLanguage Language.hi listeningWWD).recognition
      = some { lang := "en-US" } ∧
    (WakeWordDetector.setLanguage Language.hi listeningWWD).confidenceThreshold = 7/10 :=
  ⟨rfl, by decide, rfl, rfl, rfl, rfl⟩

/-- **C8, amended**: `WakeWordDetector.setLanguage` never stops or restarts
the pipeline and preserves the sensitivity threshold — while listening it
does not even touch the recognizer's language; the one-stop-plus-scheduled-
restart behaviour exists only in `useSpeech`'s language-change effect, which
performs exactly one `stopListening` and schedules one restart when a
recognizer exists and it is listening. -/
theorem C8_amended_set_language :
    (∀ (s : WWDState) (lang : Language),
        (WakeWordDetector.setLanguage lang s).confidenceThreshold = s.confidenceThreshold ∧
        (WakeWordDetector.setLanguage lang s).stopCalls = s.stopCalls ∧
        (WakeWordDetector.setLanguage lang s).startCalls = s.startCalls ∧
        (WakeWordDetector.setLanguage lang s).isListening = s.isListening ∧
        (WakeWordDetector.setLanguage lang s).language = lang ∧
        (s.isListening = true →
          (WakeWordDetector.setLanguage lang s).recognition = s.recognition)) ∧
    (∀ t : SpeechLangState, t.recognition = true → t.listening = true →
        (languageEffect t).stopCalls = t.stopCalls + 1 ∧
        (languageEffect t).pendingStart = true ∧
        (languageEffect t).recognition = false) := by
  constructor
  · intro s lang
    refine ⟨rfl, rfl, rfl, rfl, rfl, ?_⟩
    intro h
    unfold WakeWordDetector.setLanguage
    cases hr : s.recognition with
    | none => simp [hr]
    | some r => simp [hr, h]
  · intro t h1 h2
    simp [languageEffect, stopListeningUS, h1, h2]

/-- Witness for the amended C8 at the concrete listening detector state. -/
theorem C8_amended_set_language_witness :
    (WakeWordDetector.setLanguage Language.hi listeningWWD).recognition
        = listeningWWD.recognition ∧
    (languageEffect ⟨true, true, 0, false⟩).stopCalls = 0 + 1 :=
  ⟨(C8_amended_set_language.1 listeningWWD Language.hi).2.2.2.2.2 rfl,
   (C8_amended_set_language.2 ⟨true, true, 0, false⟩ rfl rfl).1⟩

/-- **C5, counterexample**: classification is NOT deterministic across runs
on identical input: on the all-ones chunk, the run whose random draw is `0`
yields confidence `0` while the run whose draw is `1/2` yields `0.99` —
`Math.random()` enters the confidence product. -/
theorem C5_counterexample :
    mockConfidence onesChunk 0 ≠ mockConfidence onesChunk (1/2) := by
  have hc : 0 ≤ calculateSpectralCentroid onesChunk := calculateSpectralCentroid_nonneg _
  have h0 : mockConfidence onesChunk 0 = 0 := by
    unfold mockConfidence
    rw [mul_zero]
    exact min_eq_right (by norm_num)
  have h1 : mockConfidence onesChunk (1/2) = 0.99 := by
    unfold mockConfidence
    rw [chunkEnergy_ones]
    apply min_eq_left
    nlinarith
  rw [h0, h1]
  norm_num

/-- **C5, amended**: classification is a pure function of the chunk and the
random draw (reproducible for a fixed draw), and for any draw in `[0, 1)` —
indeed for any non-negative draw — the confidence lies in `[0, 0.99]`,
inside the required `[0, 1]`. -/
theorem C5_amended_confidence (audioChunk : List ℝ) (rand : ℝ) (h0 : 0 ≤ rand) :
    0 ≤ mockConfidence audioChunk rand ∧ mockConfidence audioChunk rand ≤ 0.99 := by
  have he := chunkEnergy_nonneg audioChunk
  have hc := calculateSpectralCentroid_nonneg audioChunk
  constructor
  · exact le_min (by norm_num) (mul_nonneg (by nlinarith) h0)
  · exact min_le_left _ _

/-- Witness for the amended C5 at the all-ones chunk and draw `0`. -/
theorem C5_amended_confidence_witness :
    (0:ℝ) ≤ 0 ∧ 0 ≤ mockConfidence onesChunk 0 ∧ mockConfidence onesChunk 0 ≤ 0.99 :=
  ⟨le_refl 0, C5_amended_confidence onesChunk 0 (le_refl 0)⟩

/-- **C10**: the spectral-centroid computation is total — it guards the
division by `magnitudeSum > 0`, returns exactly `0` when the sum of
windowed magnitudes is zero, and its value is non-negative on every input
(empty, all-zero or arbitrary). -/
theorem C10_spectral_centroid_total (audioData : List ℝ) :
    0 ≤ calculateSpectralCentroid audioData ∧
    (magnitudeSum audioData = 0 → calculateSpectralCentroid audioData = 0) := by
  refine ⟨calculateSpectralCentroid_nonneg audioData, ?_⟩
  intro h
  unfold calculateSpectralCentroid
  rw [if_neg]
  rw [h]
  exact lt_irrefl 0

/-- Witness for C10: on the empty input the magnitude sum is zero and the
centroid is exactly `0` and non-negative. -/
theorem C10_spectral_centroid_total_witness :
    calculateSpectralCentroid ([] : List ℝ) = 0 ∧ 0 ≤ calculateSpectralCentroid ([] : List ℝ) :=
  ⟨(C10_spectral_centroid_total []).2 magnitudeSum_nil, (C10_spectral_centroid_total []).1⟩

end WakeWord
